import Mathlib

/-!
Verification of the natural-language specification of the
Enterprise-Data-Analytics portfolio engine (`src/ai_engine.py`, class
`PortfolioAIEngine`) against a shallow Lean embedding of its core functions.

Modelling conventions, used throughout:

* Python `None` and pandas `NaN` are modelled as `Option.none`; a dictionary
  key that is absent or holds `None` is an `Option` field that is `none`.
* Python floats are modelled as exact rationals (`ℚ`).  Every comparison the
  claims depend on (`> 0`, `< 0`, `> 0.6`, `>= 2.5`, `>= 1.5`, `= 0`) is made
  at values where IEEE-754 double rounding and exact rational arithmetic
  agree, so the `ℚ` model is faithful to the Python behaviour at those points.
* Python truthiness used by the source (`if x:` on an optional number, where
  both `None` and `0` are falsy) is made explicit by the helpers `qTruthy`,
  `qPos`, `qNeg`, `iTruthy`, `iPos` below.
* String helpers (`pyLower`, `pyUpper`, `pyStrip`, `removeChar`) re-implement
  the Python `str.lower` / `str.upper` / `str.strip` / single-character
  `str.replace(c, '')` calls of the source over the character list of the
  string, so that all string computations reduce inside the kernel.  The
  engine's vocabulary is ASCII, where `Char.toLower`/`Char.toUpper` agree
  with Python.
-/

/-- Python truthiness of an optional float: `None` and `0` are falsy. -/
def qTruthy : Option ℚ → Bool
  | none => false
  | some x => decide (x ≠ 0)

/-- Guarded comparison `x > 0` on an optional float (only reached by the
source after a truthiness test, so `none` maps to `false`). -/
def qPos : Option ℚ → Bool
  | none => false
  | some x => decide (0 < x)

/-- Guarded comparison `x < 0` on an optional float. -/
def qNeg : Option ℚ → Bool
  | none => false
  | some x => decide (x < 0)

/-- Python truthiness of an optional int: `None` and `0` are falsy. -/
def iTruthy : Option Int → Bool
  | none => false
  | some x => decide (x ≠ 0)

/-- Guarded comparison `x > 0` on an optional int. -/
def iPos : Option Int → Bool
  | none => false
  | some x => decide (0 < x)

/-- Subtraction of two optional numbers, defined exactly when both are
present (the source only subtracts under guards that ensure presence). -/
def optSub (x y : Option ℚ) : Option ℚ :=
  match x, y with
  | some a, some b => some (a - b)
  | _, _ => none

/-- Division of an optional float by an optional int, defined when both are
present (the source divides under guards ensuring presence and positivity). -/
def optDivInt (x : Option ℚ) (y : Option Int) : Option ℚ :=
  match x, y with
  | some a, some b => some (a / (b : ℚ))
  | _, _ => none

/-- Embedding of `PortfolioAIEngine._calculate_variance_pct`
(src/ai_engine.py:369-373): `None` if the baseline is missing or `0` or the
actual is missing, otherwise `((actual - baseline) / abs(baseline)) * 100`. -/
def calculate_variance_pct (actual baseline : Option ℚ) : Option ℚ :=
  match baseline, actual with
  | some b, some a => if b = 0 then none else some ((a - b) / |b| * 100)
  | _, _ => none

/-- The fields of the `baseline_metrics` dict read by
`_calculate_derived_metrics` (src/ai_engine.py:598-634).  Dates are modelled
as day numbers (`Int`), which is all the day-difference arithmetic uses. -/
structure BaselineMetrics where
  total_budget : Option ℚ := none
  eac : Option ℚ := none
  baseline_finish : Option Int := none
  completion_pct : Option ℚ := none

/-- The fields of the `latest_wave_snapshot` dict read by
`_calculate_derived_metrics`.  A value of type `Option WaveSnapshot` models
the dict together with its Python truthiness: `none` is the empty dict (no
snapshot was found, or a found snapshot contributed no recognised column),
`some w` is a non-empty dict whose individual keys may still be absent. -/
structure WaveSnapshot where
  forecast_finish : Option Int := none
  completion_pct : Option ℚ := none

/-- The fields of the `actuals_summary` dict read by
`_calculate_derived_metrics`. -/
structure ActualsSummary where
  total_cost : Option ℚ := none
  work_span_days : Option Int := none

/-- The `derived_metrics` dict.  In the source, `budget_overrun` is either
absent or `True`, and every consumer reads it with a falsy default, so it is
modelled as a `Bool` that is `false` when the key is absent.  The
`completion_pct` key can be set to `None` by the source (`derived[k] =
wave.get(k)`), which every consumer reads back via `.get`, so key-set-to-None
and key-absent are both modelled as `none`. -/
structure DerivedMetrics where
  cost_variance_pct : Option ℚ := none
  cost_variance_amount : Option ℚ := none
  eac_variance_pct : Option ℚ := none
  eac_variance_amount : Option ℚ := none
  schedule_variance_days : Option Int := none
  daily_burn_rate : Option ℚ := none
  completion_pct : Option ℚ := none
  remaining_budget : Option ℚ := none
  budget_overrun : Bool := false

/-- Embedding of `PortfolioAIEngine._calculate_derived_metrics`
(src/ai_engine.py:598-634).  The Python function fills an initially empty
dict with a sequence of guarded writes to pairwise-distinct keys, so it is
translated field by field; each field carries the guard of its write site:

* `cost_variance_pct` / `cost_variance_amount` (lines 606-608): guard
  `baseline_budget and baseline_budget > 0 and actual_cost and actual_cost > 0`;
* `eac_variance_pct` / `eac_variance_amount` (lines 610-612): same guard with
  `eac` in place of `actual_cost`;
* `schedule_variance_days` (lines 614-618): both dates present
  (a parsed date object is always truthy);
* `daily_burn_rate` (lines 620-622): cost truthy and positive, span truthy,
  then span `> 0`;
* `completion_pct` (lines 624-627): `if wave:` (dict truthiness) takes the
  wave value even when that value is `None`; only an empty wave dict falls
  through to the baseline value, itself guarded by truthiness;
* `remaining_budget` / `budget_overrun` (lines 629-632): both amounts truthy
  (sign unconstrained), overrun flag iff the difference is negative. -/
def calculate_derived_metrics (baseline : BaselineMetrics) (wave : Option WaveSnapshot)
    (actuals : ActualsSummary) : DerivedMetrics :=
  let baseline_budget := baseline.total_budget
  let actual_cost := actuals.total_cost
  let eac := baseline.eac
  let forecast_end : Option Int := match wave with
    | some w => w.forecast_finish
    | none => none
  { cost_variance_pct :=
      if qTruthy baseline_budget && qPos baseline_budget && qTruthy actual_cost && qPos actual_cost
      then calculate_variance_pct actual_cost baseline_budget else none
    cost_variance_amount :=
      if qTruthy baseline_budget && qPos baseline_budget && qTruthy actual_cost && qPos actual_cost
      then optSub actual_cost baseline_budget else none
    eac_variance_pct :=
      if qTruthy baseline_budget && qPos baseline_budget && qTruthy eac && qPos eac
      then calculate_variance_pct eac baseline_budget else none
    eac_variance_amount :=
      if qTruthy baseline_budget && qPos baseline_budget && qTruthy eac && qPos eac
      then optSub eac baseline_budget else none
    schedule_variance_days :=
      match baseline.baseline_finish, forecast_end with
      | some be, some fe => some (fe - be)
      | _, _ => none
    daily_burn_rate :=
      if qTruthy actual_cost && qPos actual_cost && iTruthy actuals.work_span_days
      then (if iPos actuals.work_span_days
            then optDivInt actual_cost actuals.work_span_days else none)
      else none
    completion_pct :=
      match wave with
      | some w => w.completion_pct
      | none => if qTruthy baseline.completion_pct then baseline.completion_pct else none
    remaining_budget :=
      if qTruthy baseline_budget && qTruthy actual_cost
      then optSub baseline_budget actual_cost else none
    budget_overrun :=
      if qTruthy baseline_budget && qTruthy actual_cost
      then qNeg (optSub baseline_budget actual_cost) else false }

/-- C1 counterexample: with baseline budget 100,000 and actual cost 130,000
the engine derives `cost_variance_pct = +30.0`, not the `-30.0` the claim
asserts (the claim's own formula, `(130000 - 100000) / |100000| * 100`,
equals `+30`). -/
theorem C1_counterexample :
    (calculate_derived_metrics { total_budget := some 100000 } none
        { total_cost := some 130000 }).cost_variance_pct = some 30 ∧
    (calculate_derived_metrics { total_budget := some 100000 } none
        { total_cost := some 130000 }).cost_variance_pct ≠ some (-30) := by
  have h : (calculate_derived_metrics { total_budget := some 100000 } none
      { total_cost := some 130000 }).cost_variance_pct = some 30 := by
    simp only [calculate_derived_metrics, calculate_variance_pct, qTruthy, qPos]
    norm_num
  refine ⟨h, ?_⟩
  rw [h]
  intro hc
  have : (30 : ℚ) = -30 := Option.some.inj hc
  norm_num at this

/-- C1 (amended): for every project whose baseline total budget is present
and equals 100,000 and whose summed actual cost is present and equals
130,000, the derived metrics contain `cost_variance_pct = +30.0` (the stated
formula `(actual_cost - baseline_budget) / |baseline_budget| * 100` yields
`+30`, not `-30`), `budget_overrun = true`, and
`remaining_budget = -30,000`. -/
theorem C1_amended (baseline : BaselineMetrics) (wave : Option WaveSnapshot)
    (actuals : ActualsSummary)
    (hb : baseline.total_budget = some 100000)
    (ha : actuals.total_cost = some 130000) :
    (calculate_derived_metrics baseline wave actuals).cost_variance_pct = some 30 ∧
    (calculate_derived_metrics baseline wave actuals).budget_overrun = true ∧
    (calculate_derived_metrics baseline wave actuals).remaining_budget = some (-30000) := by
  simp only [calculate_derived_metrics, calculate_variance_pct, optSub, qTruthy, qPos, qNeg, hb, ha]
  norm_num

/-- Witness for C1_amended at a concrete record. -/
theorem C1_witness :
    ({ total_budget := some 100000 : BaselineMetrics }.total_budget = some 100000) ∧
    ({ total_cost := some 130000 : ActualsSummary }.total_cost = some 130000) ∧
    (calculate_derived_metrics { total_budget := some 100000 } none
        { total_cost := some 130000 }).cost_variance_pct = some 30 ∧
    (calculate_derived_metrics { total_budget := some 100000 } none
        { total_cost := some 130000 }).budget_overrun = true ∧
    (calculate_derived_metrics { total_budget := some 100000 } none
        { total_cost := some 130000 }).remaining_budget = some (-30000) :=
  ⟨rfl, rfl, C1_amended { total_budget := some 100000 } none { total_cost := some 130000 } rfl rfl⟩

/-- C2 counterexample: a wave snapshot was found (non-empty dict) but carries
no completion value, and the baseline record has completion 50; the engine
derives `completion_pct = none`, not the baseline's 50 the claim asserts. -/
theorem C2_counterexample :
    (calculate_derived_metrics { completion_pct := some 50 }
        (some { forecast_finish := none, completion_pct := none }) {}).completion_pct = none ∧
    (calculate_derived_metrics { completion_pct := some 50 }
        (some { forecast_finish := none, completion_pct := none }) {}).completion_pct ≠ some 50 := by
  constructor
  · rfl
  · intro hc
    exact Option.noConfusion hc

/-- C2 (amended): the branch on line 624 tests the truthiness of the wave
snapshot dict, not the presence of its completion value.  Whenever a wave
snapshot exists (non-empty dict), `completion_pct` is exactly the snapshot's
completion value — absent when that value is absent, even if the baseline
record has one; only when no wave snapshot exists does a present (and
non-zero) baseline completion fill in; otherwise it is absent. -/
theorem C2_amended (baseline : BaselineMetrics) (wave : Option WaveSnapshot)
    (actuals : ActualsSummary) :
    (calculate_derived_metrics baseline wave actuals).completion_pct =
      match wave with
      | some w => w.completion_pct
      | none =>
          if qTruthy baseline.completion_pct then baseline.completion_pct else none := by
  simp only [calculate_derived_metrics]

/-- Python `str.lower` over the character data of the string (ASCII inputs,
where `Char.toLower` agrees with Python). -/
def pyLower (s : String) : String := String.mk (s.data.map Char.toLower)

/-- Python `str.upper` over the character data of the string. -/
def pyUpper (s : String) : String := String.mk (s.data.map Char.toUpper)

/-- Python `str.strip()`: drop whitespace from both ends. -/
def pyStrip (s : String) : String :=
  String.mk (((s.data.dropWhile Char.isWhitespace).reverse.dropWhile Char.isWhitespace).reverse)

/-- Python `str.replace(c, '')` for a single character `c`: removing every
occurrence of one character is filtering it out. -/
def removeChar (s : String) (c : Char) : String :=
  String.mk (s.data.filter (fun a => a != c))

/-- The column-name normalisation `str(col).lower().strip()` used by
`_detect_column` (src/ai_engine.py:75-83). -/
def norm_col (s : String) : String := pyStrip (pyLower s)

/-- The separator-stripping normalisation
`str(col).lower().strip().replace('_', '').replace(' ', '').replace('-', '')`
of `_detect_column`'s third pass (src/ai_engine.py:88-90). -/
def norm_sep (s : String) : String :=
  removeChar (removeChar (removeChar (norm_col s) '_') ' ') '-'

/-- Python substring containment `needle in hay`, over character lists. -/
def pySubstr (needle : List Char) : List Char → Bool
  | [] => needle.isEmpty
  | c :: t => needle.isPrefixOf (c :: t) || pySubstr needle t

/-- Embedding of `PortfolioAIEngine._detect_column` (src/ai_engine.py:67-94).
A dataframe is represented by its column-name list (the function reads
nothing else; `df is None or df.empty` yields the empty behaviour of an empty
list).  Three passes, each iterating over the COLUMNS in table order with the
patterns tried inside that loop: (1) normalised exact equality, (2) substring
containment in either direction, (3) equality or pattern-in-column
containment after stripping separators.  The first column satisfying a pass
is returned. -/
def detect_column (cols : List String) (patterns : List String) : Option String :=
  match cols.find? (fun col => patterns.any (fun p => norm_col col == norm_col p)) with
  | some c => some c
  | none =>
    match cols.find? (fun col => patterns.any (fun p =>
        pySubstr (norm_col p).data (norm_col col).data ||
        pySubstr (norm_col col).data (norm_col p).data)) with
    | some c => some c
    | none =>
      cols.find? (fun col => patterns.any (fun p =>
        norm_sep col == norm_sep p ||
        pySubstr (norm_sep p).data (norm_sep col).data))

/-- C3 counterexample: table columns `["id", "project_id"]` against the
pattern list `["project_id", "id"]`.  Column `project_id` exactly equals the
earlier pattern and column `id` exactly equals only the later pattern, so the
claim says `project_id` is returned; the code iterates columns in the outer
loop and returns `id`, the first column in table order that equals any
pattern. -/
theorem C3_counterexample :
    detect_column ["id", "project_id"] ["project_id", "id"] = some "id" ∧
    detect_column ["id", "project_id"] ["project_id", "id"] ≠ some "project_id" := by
  constructor
  · rfl
  · intro hc
    rw [show detect_column ["id", "project_id"] ["project_id", "id"] = some "id" from rfl] at hc
    have : "id" = "project_id" := Option.some.inj hc
    simp at this

/-- Helper: `List.find?` returns the marked element when everything before it
fails the predicate and it satisfies the predicate. -/
theorem find?_append_first {α : Type} {p : α → Bool} (pre rest : List α) (c : α)
    (hc : p c = true) (hpre : ∀ x ∈ pre, p x = false) :
    (pre ++ c :: rest).find? p = some c := by
  induction pre with
  | nil => simp [List.find?, hc]
  | cons a as ih =>
    have ha : p a = false := hpre a (by simp)
    simp only [List.cons_append, List.find?, ha]
    exact ih (fun x hx => hpre x (by simp [hx]))

/-- C3 (amended): in column detection the outer iteration is over the
table's columns, so TABLE ORDER, not pattern order, resolves ambiguity in the
exact-match pass: the first column (in table order) whose normalised name
exactly equals ANY pattern — earlier or later — is returned; the declared
pattern order only sequences the checks within one column.  Formally: if
every column before `c` fails the exact-match pass and `c` exactly equals
some pattern, `c` is returned regardless of which pattern it matches. -/
theorem C3_amended (pre rest patterns : List String) (c : String)
    (hc : patterns.any (fun p => norm_col c == norm_col p) = true)
    (hpre : ∀ x ∈ pre, patterns.any (fun p => norm_col x == norm_col p) = false) :
    detect_column (pre ++ c :: rest) patterns = some c := by
  unfold detect_column
  rw [find?_append_first pre rest c hc hpre]

/-- Witness for C3_amended: column `id` is returned even though it matches
only the second pattern, because the one column before it matches nothing. -/
theorem C3_witness :
    ((["project_id", "id"] : List String).any
        (fun p => norm_col "id" == norm_col p) = true) ∧
    (∀ x ∈ (["owner"] : List String),
        (["project_id", "id"] : List String).any (fun p => norm_col x == norm_col p) = false) ∧
    detect_column (["owner"] ++ "id" :: ["budget"]) ["project_id", "id"] = some "id" := by
  refine ⟨by decide, by decide, ?_⟩
  exact C3_amended ["owner"] ["budget"] ["project_id", "id"] "id" (by decide) (by decide)

/-- Embedding of the trend part of `PortfolioAIEngine._get_wave_trends`
(src/ai_engine.py:441-459) that computes the `recent_deterioration` flag.
The input is the status column of the project's wave rows in source row
order, already stringified (`astype(str)`); the function lowercases them
(`.str.lower().tolist()`) and, when at least two rows exist, tests Python
LIST MEMBERSHIP `'red' in statuses[-2:]` / `'delayed' in statuses[-2:]`,
i.e. string equality against the last two elements.  The flag is only ever
set to `True`; an unset flag reads back falsy, so it is modelled as `Bool`.
(The outer guard `len(project_waves) < 2` is the same length test, since
there is one status per row.) -/
def get_wave_trends_recent_deterioration (statuses_raw : List String) : Bool :=
  let statuses := statuses_raw.map pyLower
  if 2 ≤ statuses.length then
    let lastTwo := statuses.drop (statuses.length - 2)
    lastTwo.contains "red" || lastTwo.contains "delayed"
  else false

/-- C5 counterexample: the second-to-last/last statuses are
`["Green", "Red - at risk"]`.  Lowercased, the last status contains `"red"`
as a substring, so the claim says the recent-deterioration flag is set; the
code compares by list membership (string equality), finds neither element
equal to `"red"` or `"delayed"`, and leaves the flag unset. -/
theorem C5_counterexample :
    pySubstr "red".data (pyLower "Red - at risk").data = true ∧
    get_wave_trends_recent_deterioration ["Green", "Red - at risk"] = false := by
  constructor
  · rfl
  · rfl

/-- C5 (amended): for every project with at least two historical wave rows,
the recent-deterioration flag is set if and only if one of the
chronologically-last two status values, lowercased, is EXACTLY the string
`"red"` or exactly `"delayed"` (list membership, i.e. whole-string equality,
not a substring check: a status like `"Red - at risk"` does not set it). -/
theorem C5_amended (pre : List String) (s1 s2 : String) :
    get_wave_trends_recent_deterioration (pre ++ [s1, s2]) = true ↔
      (pyLower s1 = "red" ∨ pyLower s1 = "delayed" ∨
       pyLower s2 = "red" ∨ pyLower s2 = "delayed") := by
  simp only [get_wave_trends_recent_deterioration]
  have hlen : ((pre ++ [s1, s2]).map pyLower).length = pre.length + 2 := by
    simp
  rw [hlen]
  have hcond : 2 ≤ pre.length + 2 := by omega
  rw [if_pos hcond]
  have hdrop : ((pre ++ [s1, s2]).map pyLower).drop (pre.length + 2 - 2) =
      [pyLower s1, pyLower s2] := by
    have h2 : pre.length + 2 - 2 = (pre.map pyLower).length := by simp
    rw [h2, List.map_append, List.drop_left]
    rfl
  rw [hdrop]
  simp only [List.contains_cons, List.contains_nil, List.elem_nil, Bool.or_false,
    Bool.or_eq_true, beq_iff_eq]
  constructor
  · rintro (⟨h | h⟩ | ⟨h | h⟩) <;> simp [h.symm]
  · rintro (h | h | h | h) <;> simp [h]


/-- One step of the best-match loop of `_get_latest_wave_snapshot`
(src/ai_engine.py:413-420): the accumulator is `(best_match_idx, best_score)`
and a row beats it only when its score is STRICTLY greater. -/
def wave_best_step (best : Option Nat × ℚ) (p : Nat × ℚ) : Option Nat × ℚ :=
  if p.2 > best.2 then (some p.1, p.2) else best

/-- Embedding of the fuzzy-name stage of
`PortfolioAIEngine._get_latest_wave_snapshot` (src/ai_engine.py:411-425).
The rows are represented by their similarity scores to the queried name, in
iteration order (`_fuzzy_match_score` is `difflib.SequenceMatcher(...).ratio()`
on the lowercased, stripped strings — an external library computation whose
per-row results are taken as the input here; only the acceptance logic is
under scrutiny).  `best_score` starts at `0.6` with no index, and the loop
keeps the first row whose score strictly exceeds every earlier score and the
`0.6` floor; the returned value is the accepted row index, if any. -/
def wave_fuzzy_best_index (scores : List ℚ) : Option Nat :=
  (scores.enum.foldl wave_best_step ((none : Option Nat), (3 / 5 : ℚ))).1

/-- Embedding of the fuzzy-name stage of `PortfolioAIEngine._get_tick_actuals`
(src/ai_engine.py:472-483): every distinct raw identifier whose similarity
score to the queried name STRICTLY exceeds `0.6` is collected (the rows are
again represented by their scores in iteration order, and the collected rows
by their indices). -/
def tick_fuzzy_match_indices (scores : List ℚ) : List Nat :=
  (scores.enum.filter (fun p => p.2 > (3 / 5 : ℚ))).map Prod.fst

/-- C4 counterexample: a single candidate row whose similarity score is
exactly `0.6` (e.g. `SequenceMatcher` ratio of `"abc"` vs `"abcdefg"`:
`2*3/10`), hence the highest score.  The claim says both fuzzy lookups accept
it; the code compares strictly (`score > best_score` with `best_score = 0.6`,
and `score > 0.6`), so the wave lookup returns no match and the tick lookup
collects nothing. -/
theorem C4_counterexample :
    wave_fuzzy_best_index [(3 / 5 : ℚ)] = none ∧
    tick_fuzzy_match_indices [(3 / 5 : ℚ)] = [] := by
  constructor
  · simp [wave_fuzzy_best_index, wave_best_step, List.enum]
  · simp [tick_fuzzy_match_indices, List.enum]

/-- Helper: the best-match fold accepts some row iff some score strictly
exceeds the starting threshold. -/
theorem wave_fold_isSome (l : List (Nat × ℚ)) (acc : Option Nat × ℚ) :
    (l.foldl wave_best_step acc).1.isSome = true ↔
      acc.1.isSome = true ∨ ∃ p ∈ l, acc.2 < p.2 := by
  induction l generalizing acc with
  | nil => simp
  | cons hd tl ih =>
    by_cases h : acc.2 < hd.2
    · simp only [List.foldl_cons, wave_best_step, if_pos (show hd.2 > acc.2 from h)]
      rw [ih]
      constructor
      · intro _
        exact Or.inr ⟨hd, List.mem_cons_self hd tl, h⟩
      · intro _
        exact Or.inl rfl
    · simp only [List.foldl_cons, wave_best_step,
        if_neg (show ¬ hd.2 > acc.2 from h)]
      rw [ih]
      constructor
      · rintro (ha | ⟨p, hp, hlt⟩)
        · exact Or.inl ha
        · exact Or.inr ⟨p, List.mem_cons_of_mem _ hp, hlt⟩
      · rintro (ha | ⟨p, hp, hlt⟩)
        · exact Or.inl ha
        · rcases List.mem_cons.mp hp with rfl | hp2
          · exact absurd hlt h
          · exact Or.inr ⟨p, hp2, hlt⟩

/-- Helper: a property of the value component ranges over `enumFrom`
exactly as over the underlying list. -/
theorem exists_enumFrom_snd {α : Type} (P : α → Prop) (l : List α) (n : Nat) :
    (∃ p ∈ List.enumFrom n l, P p.2) ↔ ∃ q ∈ l, P q := by
  induction l generalizing n with
  | nil => simp [List.enumFrom]
  | cons a t ih =>
    simp only [List.enumFrom, List.mem_cons]
    constructor
    · rintro ⟨p, hp | hp, hP⟩
      · subst hp
        exact ⟨a, Or.inl rfl, hP⟩
      · rcases (ih (n + 1)).mp ⟨p, hp, hP⟩ with ⟨q, hq, hQ⟩
        exact ⟨q, Or.inr hq, hQ⟩
    · rintro ⟨q, hq | hq, hQ⟩
      · subst hq
        exact ⟨(n, q), Or.inl rfl, hQ⟩
      · rcases (ih (n + 1)).mpr ⟨q, hq, hQ⟩ with ⟨p, hp, hP⟩
        exact ⟨p, Or.inr hp, hP⟩

/-- C4 (amended): when no shared key column exists, resolution by display
name requires ratio-based similarity STRICTLY GREATER than `0.6`: the
wave-snapshot lookup accepts some row iff some row's score exceeds `0.6`
(a highest score of exactly `0.6` is rejected), and the actuals lookup
collects no identifier unless some score exceeds `0.6`. -/
theorem C4_amended (scores : List ℚ) :
    ((wave_fuzzy_best_index scores).isSome = true ↔ ∃ q ∈ scores, (3 / 5 : ℚ) < q) ∧
    (tick_fuzzy_match_indices scores = [] ↔ ∀ q ∈ scores, q ≤ (3 / 5 : ℚ)) := by
  constructor
  · unfold wave_fuzzy_best_index
    rw [wave_fold_isSome]
    simp only [Option.isSome_none, Bool.false_eq_true, false_or]
    exact exists_enumFrom_snd (fun q => (3 / 5 : ℚ) < q) scores 0
  · unfold tick_fuzzy_match_indices
    rw [List.map_eq_nil_iff, List.filter_eq_nil_iff]
    constructor
    · intro h q hq
      by_contra hlt
      push_neg at hlt
      rcases (exists_enumFrom_snd (fun q => (3 / 5 : ℚ) < q) scores 0).mpr
          ⟨q, hq, hlt⟩ with ⟨p, hp, hP⟩
      exact absurd (decide_eq_true hP) (by simpa using h p hp)
    · intro h p hp
      simp only [decide_eq_true_eq]
      intro hgt
      have hq : ∃ q ∈ scores, (3 / 5 : ℚ) < q :=
        (exists_enumFrom_snd (fun q => (3 / 5 : ℚ) < q) scores 0).mp ⟨p, hp, hgt⟩
      rcases hq with ⟨q, hqm, hql⟩
      exact absurd hql (not_lt.mpr (h q hqm))

/-- Untyped spreadsheet cell values as seen by `_safe_numeric`
(src/ai_engine.py:347-356): missing (`None`/`NaN`, i.e. `pd.isna`), a
string, or an already-numeric value. -/
inductive CellValue where
  | vNone : CellValue
  | vStr : String → CellValue
  | vNum : ℚ → CellValue

/-- Value of a digit list read in base 10 (helper for the `float()` model). -/
def digitsToNat (cs : List Char) : Nat :=
  cs.foldl (fun n c => 10 * n + (c.toNat - '0'.toNat)) 0

/-- Exponent suffix of a Python float literal: either nothing, or
`e`/`E`, an optional sign, and a non-empty digit run ending the string. -/
def parseExpPart (cs : List Char) : Option Int :=
  match cs with
  | [] => some 0
  | c :: rest =>
    if c == 'e' || c == 'E' then
      let signed : Int × List Char :=
        match rest with
        | '+' :: r => (1, r)
        | '-' :: r => (-1, r)
        | r => (1, r)
      let ds := signed.2.takeWhile Char.isDigit
      let rest3 := signed.2.dropWhile Char.isDigit
      if ds.isEmpty || !rest3.isEmpty then none
      else some (signed.1 * (digitsToNat ds : Int))
    else none

/-- Mantissa of a Python float literal: a digit run, optionally followed by
`.` and a further digit run, at least one digit in total.  Returns the
integer part, the fraction digits' value, the number of fraction digits, and
the unconsumed remainder. -/
def parseMantissa (cs : List Char) : Option (Nat × Nat × Nat × List Char) :=
  let ip := cs.takeWhile Char.isDigit
  let rest := cs.dropWhile Char.isDigit
  match rest with
  | '.' :: rest2 =>
    let fp := rest2.takeWhile Char.isDigit
    let rest3 := rest2.dropWhile Char.isDigit
    if ip.isEmpty && fp.isEmpty then none
    else some (digitsToNat ip, digitsToNat fp, fp.length, rest3)
  | _ => if ip.isEmpty then none else some (digitsToNat ip, 0, 0, rest)

/-- A fully parsed Python float literal: sign, integer part, fraction
digits' value and count, decimal exponent. -/
structure PyDecimal where
  negative : Bool
  ip : Nat
  fp : Nat
  fplen : Nat
  exp : Int
  deriving DecidableEq

/-- Mantissa followed by exponent, with nothing left over. -/
def parseUnsignedDecimal (neg : Bool) (cs : List Char) : Option PyDecimal :=
  match parseMantissa cs with
  | none => none
  | some (ip, fp, fplen, rest) =>
    match parseExpPart rest with
    | none => none
    | some e => some ⟨neg, ip, fp, fplen, e⟩

/-- Syntactic part of the CPython `float(s)` model: optional sign, then an
unsigned decimal literal. -/
def parseDecimal (cs : List Char) : Option PyDecimal :=
  match cs with
  | '+' :: rest => parseUnsignedDecimal false rest
  | '-' :: rest => parseUnsignedDecimal true rest
  | _ => parseUnsignedDecimal false cs

/-- Exact rational value of a parsed decimal literal. -/
def decimalValue (d : PyDecimal) : ℚ :=
  let mag : ℚ := ((d.ip : ℚ) + (d.fp : ℚ) / (10 : ℚ) ^ d.fplen) * (10 : ℚ) ^ d.exp
  if d.negative then -mag else mag

/-- Model of CPython `float(s)` on an already-stripped string, for the
decimal-literal grammar, returning the literal's exact rational value;
anything outside that grammar is a parse failure (`ValueError`, hence `None`
through the source's `except`).  The special forms `inf`/`nan`, underscore
digit grouping, and hex floats do not occur in the engine's spreadsheet
inputs and are modelled as failures. -/
def pyFloatOfString (s : String) : Option ℚ :=
  (parseDecimal s.data).map decimalValue

/-- The string cleanup of `_safe_numeric` (src/ai_engine.py:352-353):
`value.replace(',', '').replace('$', '').replace('€', '').strip()`. -/
def strip_numeric_string (s : String) : String :=
  pyStrip (removeChar (removeChar (removeChar s ',') '$') '€')

/-- Embedding of `PortfolioAIEngine._safe_numeric` (src/ai_engine.py:347-356)
at its default `default=None` (the only way the engine calls it): `None` for
missing input (`pd.isna`), the value itself for numeric input, and for
string input the cleaned string parsed by `float()`, with any parse failure
caught and turned into `None`. -/
def safe_numeric : CellValue → Option ℚ
  | CellValue.vNone => none
  | CellValue.vNum q => some q
  | CellValue.vStr s => pyFloatOfString (strip_numeric_string s)

/-- C6 (confirmed): numeric normalization strips thousands separators and
currency symbols and parses the remainder as a float (illustrated on
`"$1,234.5"`, `"€2,000"` and `"1.5e2"`); for every missing input and every
string whose cleaned form does not parse, the result is `None` — never `0`
nor any other default (`safe_numeric` returns exactly the cleaned parse
result for every string, so a `some` result can only arise from a
successful parse of the cleaned string). -/
theorem C6_safe_numeric :
    safe_numeric CellValue.vNone = none ∧
    (∀ s : String, pyFloatOfString (strip_numeric_string s) = none →
        safe_numeric (CellValue.vStr s) = none) ∧
    (∀ s : String, ∀ q : ℚ, safe_numeric (CellValue.vStr s) = some q →
        pyFloatOfString (strip_numeric_string s) = some q) ∧
    safe_numeric (CellValue.vStr "$1,234.5") = some (2469 / 2) ∧
    safe_numeric (CellValue.vStr "€2,000") = some 2000 ∧
    safe_numeric (CellValue.vStr "1.5e2") = some 150 ∧
    safe_numeric (CellValue.vStr "abc") = none ∧
    safe_numeric (CellValue.vStr "") = none ∧
    safe_numeric (CellValue.vStr "12.3.4") = none := by
  refine ⟨rfl, fun s h => h, fun s q h => h, ?_, ?_, ?_, rfl, rfl, rfl⟩
  · show pyFloatOfString (strip_numeric_string "$1,234.5") = some (2469 / 2)
    have h : parseDecimal (strip_numeric_string "$1,234.5").data =
        some ⟨false, 1234, 5, 1, 0⟩ := by decide
    rw [pyFloatOfString, h]
    simp only [Option.map_some']
    norm_num [decimalValue]
  · show pyFloatOfString (strip_numeric_string "€2,000") = some 2000
    have h : parseDecimal (strip_numeric_string "€2,000").data =
        some ⟨false, 2000, 0, 0, 0⟩ := by decide
    rw [pyFloatOfString, h]
    simp only [Option.map_some']
    norm_num [decimalValue]
  · show pyFloatOfString (strip_numeric_string "1.5e2") = some 150
    have h : parseDecimal (strip_numeric_string "1.5e2").data =
        some ⟨false, 1, 5, 1, 2⟩ := by decide
    rw [pyFloatOfString, h]
    simp only [Option.map_some']
    norm_num [decimalValue]

/-- Witness for C6_safe_numeric: a concrete unparsable string maps to `None`. -/
theorem C6_witness :
    pyFloatOfString (strip_numeric_string "n/a") = none ∧
    safe_numeric (CellValue.vStr "n/a") = none := by
  refine ⟨rfl, ?_⟩
  exact C6_safe_numeric.2.1 "n/a" rfl

/-- Embedding of the per-project loop of
`PortfolioAIEngine.analyze_all_projects` (src/ai_engine.py:996-1008), run on
a fresh engine.  `analyze` stands for `analyze_project`, which either
returns a project record or raises; `analyze_project` touches the shared
`self.projects` dict only in its final statement
(`self.projects[project_id] = project_data`, line 958), so a raising call
leaves the accumulated mapping untouched, which the `Except.error` branch
reflects.  The identifiers come from a sorted, de-duplicated set, so the
mapping is modelled as an append-only association list. -/
def analyze_all_projects {α : Type} (analyze : String → Except String α)
    (project_ids : List String) : List (String × α) :=
  project_ids.foldl
    (fun projects project_id =>
      match analyze project_id with
      | Except.ok project_data => projects ++ [(project_id, project_data)]
      | Except.error _ => projects)
    []

/-- C7 (confirmed): an exception while analyzing one project identity is
caught at the per-project boundary: the batch result on a run containing a
failing identity equals the result on the same run without it — the failing
identity is excluded from the returned mapping, the projects analyzed before
it are unaffected, and every remaining identity is still analyzed. -/
theorem C7_batch_isolation {α : Type} (analyze : String → Except String α)
    (pre post : List String) (bad : String) (e : String)
    (hbad : analyze bad = Except.error e) :
    analyze_all_projects analyze (pre ++ bad :: post) =
      analyze_all_projects analyze (pre ++ post) := by
  unfold analyze_all_projects
  rw [List.foldl_append, List.foldl_append, List.foldl_cons, hbad]

/-- Witness for C7_batch_isolation at a concrete failing analysis. -/
theorem C7_witness :
    ((fun s => if s = "B" then (Except.error "boom" : Except String Nat)
               else Except.ok s.length) "B" = Except.error "boom") ∧
    analyze_all_projects
        (fun s => if s = "B" then (Except.error "boom" : Except String Nat)
                  else Except.ok s.length)
        (["AA"] ++ "B" :: ["CCC"]) =
      analyze_all_projects
        (fun s => if s = "B" then (Except.error "boom" : Except String Nat)
                  else Except.ok s.length)
        (["AA"] ++ ["CCC"]) :=
  ⟨rfl, C7_batch_isolation _ ["AA"] ["CCC"] "B" "boom" rfl⟩

/-- The `health_map` lexicon of `PortfolioAIEngine._classify_health`
(src/ai_engine.py:377-381), read with `.get(key, 2)`: unrecognized text
scores the middle value 2. -/
def health_map_get (s : String) : Nat :=
  if s == "green" then 3 else if s == "yellow" then 2 else if s == "red" then 1
  else if s == "on track" then 3 else if s == "at risk" then 2 else if s == "delayed" then 1
  else if s == "low" then 3 else if s == "medium" then 2 else if s == "high" then 1
  else 2

/-- Score of one health input (src/ai_engine.py:383-385):
`health_map.get(str(x).lower().strip(), 2) if x else 2`.  A falsy input
(`None` or the empty string) scores 2; the empty string would also miss the
lexicon and score 2, so `none` covers both falsy cases. -/
def healthScore (v : Option String) : Nat :=
  match v with
  | some s => health_map_get (pyStrip (pyLower s))
  | none => 2

/-- Embedding of `PortfolioAIEngine._classify_health`
(src/ai_engine.py:375-394): score the three inputs, average, and bucket at
`>= 2.5` and `>= 1.5`. -/
def classify_health (schedule_health budget_health risk_level : Option String) : String :=
  let schedule_score := healthScore schedule_health
  let budget_score := healthScore budget_health
  let risk_score := healthScore risk_level
  let avg_score : ℚ := ((schedule_score + budget_score + risk_score : ℕ) : ℚ) / 3
  if avg_score ≥ 5 / 2 then "On Track"
  else if avg_score ≥ 3 / 2 then "At Risk"
  else "Delayed"

/-- C9 (confirmed): the health classifier is order-independent in its three
inputs: whenever the multisets of lexicon scores of the two input triples
coincide (unrecognized text scoring 2), the status bucket is the same — in
particular, permuting which argument holds which value never changes the
bucket. -/
theorem C9_classify_health_order_independent
    (a b c a2 b2 c2 : Option String)
    (h : ({healthScore a, healthScore b, healthScore c} : Multiset ℕ) =
         {healthScore a2, healthScore b2, healthScore c2}) :
    classify_health a b c = classify_health a2 b2 c2 := by
  have hsum : healthScore a + healthScore b + healthScore c =
      healthScore a2 + healthScore b2 + healthScore c2 := by
    have h2 := congrArg Multiset.sum h
    simpa [add_assoc] using h2
  simp only [classify_health]
  rw [hsum]

/-- Witness for C9 at concrete values: `("Green", "Red", None)` vs
`(None, "on track", "HIGH")` both score `{3, 1, 2}` and classify "At Risk". -/
theorem C9_witness :
    (({healthScore (some "Green"), healthScore (some "Red"), healthScore none} : Multiset ℕ) =
      {healthScore none, healthScore (some "on track"), healthScore (some "HIGH")}) ∧
    classify_health (some "Green") (some "Red") none =
      classify_health none (some "on track") (some "HIGH") ∧
    classify_health (some "Green") (some "Red") none = "At Risk" := by
  have h : ({healthScore (some "Green"), healthScore (some "Red"), healthScore none} : Multiset ℕ) =
      {healthScore none, healthScore (some "on track"), healthScore (some "HIGH")} := by
    decide
  refine ⟨h, C9_classify_health_order_independent _ _ _ _ _ _ h, ?_⟩
  have h1 : healthScore (some "Green") = 3 := by decide
  have h2 : healthScore (some "Red") = 1 := by decide
  have h3 : healthScore (none : Option String) = 2 := by decide
  simp only [classify_health, h1, h2, h3]
  norm_num

/-- Top-level fields of an insight dict object, for the persona-routing
claims.  The `metrics` payload is itself a mutable dict, so the field holds
a REFERENCE (an address into `MetricsHeap`) rather than a value, modelling
Python object identity for the nested dict. -/
structure InsightObj where
  severity : String
  metricsRef : Nat
  deriving DecidableEq

/-- The store of nested `metrics` dicts, addressed by `InsightObj.metricsRef`. -/
def MetricsHeap : Type := List (List (String × ℚ))

/-- Python `dict.copy()` on an insight dict: a NEW top-level dict with the
same field values — in particular the same reference to the nested
`metrics` dict (shallow copy).  This models
`self.vp_insights.append(self.executive_insights[-1].copy())`
(src/ai_engine.py:1245) and
`self.manager_insights.append(self.vp_insights[-1].copy())`
(src/ai_engine.py:1564). -/
def dict_copy (i : InsightObj) : InsightObj :=
  { severity := i.severity, metricsRef := i.metricsRef }

/-- Python `d[key] = v` on one metrics dict: replace in place if the key
exists, else append. -/
def setKey : List (String × ℚ) → String → ℚ → List (String × ℚ)
  | [], k, v => [(k, v)]
  | kv :: rest, k, v =>
    if kv.1 == k then (kv.1, v) :: rest else kv :: setKey rest k v

/-- Read a key of the metrics dict at an address. -/
def readMetric (heap : MetricsHeap) (ref : Nat) (key : String) : Option ℚ :=
  ((heap.getD ref []).find? (fun kv => kv.1 == key)).map (fun kv => kv.2)

/-- Mutate a key of the metrics dict at an address: only that address
changes, and every object holding that address observes the change. -/
def writeMetric (heap : MetricsHeap) (ref : Nat) (key : String) (v : ℚ) : MetricsHeap :=
  heap.set ref (setKey (heap.getD ref []) key v)

/-- The two persona buckets involved in the cited sites. -/
structure PersonaBuckets where
  executive_insights : List InsightObj
  vp_insights : List InsightObj

/-- Embedding of the routing tail of `_formula_value_leakage_index`
(src/ai_engine.py:1226-1245): append the freshly built insight dict to the
executive bucket, then append a `.copy()` of that same object to the vp
bucket. -/
def route_to_exec_and_vp (st : PersonaBuckets) (i : InsightObj) : PersonaBuckets :=
  { executive_insights := st.executive_insights ++ [i],
    vp_insights := st.vp_insights ++ [dict_copy i] }

/-- Helper: overwriting an existing key is observed by a later lookup of
that key. -/
theorem find?_setKey (d : List (String × ℚ)) (k : String) (v : ℚ) :
    (setKey d k v).find? (fun kv => kv.1 == k) = some (k, v) := by
  induction d with
  | nil => simp [setKey, List.find?]
  | cons kv rest ih =>
    by_cases h : kv.1 == k
    · have hk : kv.1 = k := eq_of_beq h
      simp [setKey, h, List.find?, hk]
    · have hk : (kv.1 == k) = false := by simpa using h
      simp only [setKey, hk, Bool.false_eq_true, if_false, List.find?, ih]

/-- Helper: `List.set` at an in-bounds index is observed by `getD` there. -/
theorem getD_set_self {α : Type} (l : List α) (i : Nat) (a d : α)
    (h : i < l.length) : (l.set i a).getD i d = a := by
  induction l generalizing i with
  | nil => simp at h
  | cons x xs ih =>
    cases i with
    | zero => simp [List.set, List.getD]
    | succ n =>
      rw [List.set_cons_succ, List.getD_cons_succ]
      exact ih n (by simpa using h)

/-- C8 counterexample: one insight routed to the executive and vp buckets
via the source's `.copy()`.  Both bucket entries hold the same nested
metrics reference (address 0, a dict with `leakage_pct = 25`); mutating the
`leakage_pct` entry of the VP copy's metrics payload to 99 changes what the
executive copy's payload reads to 99 — not the unchanged 25 the claim
asserts. -/
theorem C8_counterexample :
    (route_to_exec_and_vp { executive_insights := [], vp_insights := [] }
        { severity := "critical", metricsRef := 0 }).executive_insights =
      [{ severity := "critical", metricsRef := 0 }] ∧
    (route_to_exec_and_vp { executive_insights := [], vp_insights := [] }
        { severity := "critical", metricsRef := 0 }).vp_insights =
      [{ severity := "critical", metricsRef := 0 }] ∧
    readMetric [[("leakage_pct", 25)]] 0 "leakage_pct" = some 25 ∧
    readMetric (writeMetric [[("leakage_pct", 25)]] 0 "leakage_pct" 99) 0 "leakage_pct" =
      some 99 ∧
    readMetric (writeMetric [[("leakage_pct", 25)]] 0 "leakage_pct" 99) 0 "leakage_pct" ≠
      some 25 := by
  refine ⟨rfl, rfl, rfl, rfl, ?_⟩
  intro hc
  rw [show readMetric (writeMetric [[("leakage_pct", 25)]] 0 "leakage_pct" 99) 0 "leakage_pct" =
      some 99 from rfl] at hc
  have h99 : (99 : ℚ) = 25 := Option.some.inj hc
  norm_num at h99

/-- C8 (amended): when an insight is routed to a second persona bucket, the
second bucket receives a `dict.copy()` — a distinct top-level record whose
top-level fields (severity, the metrics reference) equal the original's, so
replacing a top-level field of one copy cannot affect the other; but the
nested `metrics` payload is SHARED by reference, so mutating a metrics entry
through either copy changes the value read through the other copy. -/
theorem C8_amended (heap : MetricsHeap) (st : PersonaBuckets) (i : InsightObj)
    (k : String) (v : ℚ) (href : i.metricsRef < heap.length) :
    (route_to_exec_and_vp st i).executive_insights.getLast? = some i ∧
    (route_to_exec_and_vp st i).vp_insights.getLast? = some (dict_copy i) ∧
    (dict_copy i).severity = i.severity ∧
    (dict_copy i).metricsRef = i.metricsRef ∧
    readMetric (writeMetric heap (dict_copy i).metricsRef k v) i.metricsRef k = some v := by
  refine ⟨?_, ?_, rfl, rfl, ?_⟩
  · simp [route_to_exec_and_vp]
  · simp [route_to_exec_and_vp]
  · show readMetric (writeMetric heap i.metricsRef k v) i.metricsRef k = some v
    unfold readMetric writeMetric
    rw [getD_set_self _ _ _ _ href, find?_setKey]
    rfl

/-- Witness for C8_amended at a concrete heap and insight. -/
theorem C8_witness :
    (({ severity := "warning", metricsRef := 0 } : InsightObj).metricsRef <
        ([[("avg_drag_days", 40)]] : MetricsHeap).length) ∧
    readMetric
        (writeMetric [[("avg_drag_days", 40)]]
          (dict_copy { severity := "warning", metricsRef := 0 }).metricsRef
          "avg_drag_days" 77)
        ({ severity := "warning", metricsRef := 0 } : InsightObj).metricsRef
        "avg_drag_days" = some 77 :=
  ⟨by decide,
   (C8_amended [[("avg_drag_days", 40)]]
      { executive_insights := [], vp_insights := [] }
      { severity := "warning", metricsRef := 0 } "avg_drag_days" 77
      (by decide)).2.2.2.2⟩

/-- The two fields of an insight dict that the per-project retrieval
functions consult: `severity` (the sort key) and `project_id` (the filter
key).  The other payload fields (title, description, metrics, ...) do not
influence which insights are returned. -/
structure Insight where
  severity : String
  project_id : Option String
  deriving DecidableEq

/-- The three persona-keyed insight lists of the engine. -/
structure InsightsState where
  executive_insights : List Insight
  vp_insights : List Insight
  manager_insights : List Insight

/-- Append freshly built insight dicts to the three buckets.  A rule that
routes one insight to two buckets appends the dict and then a `.copy()` of
it, which carries the same field values, so both bucket entries are the same
`Insight` value here. -/
def emit (st : InsightsState) (es vs ms : List Insight) : InsightsState :=
  { executive_insights := st.executive_insights ++ es,
    vp_insights := st.vp_insights ++ vs,
    manager_insights := st.manager_insights ++ ms }

/-- Guarded emission: the common shape `if <rule fires> then append the
rule's insight literals else nothing`.  The data-dependent firing condition
of each rule is abstracted into the Boolean (the claims quantify over it);
the emitted literals are fixed per construction site in the source, each
with its literal `'project_id': None`. -/
def fireEmit (cond : Bool) (es vs ms : List Insight) (st : InsightsState) : InsightsState :=
  if cond then emit st es vs ms else st

/-- `_formula_value_leakage_index` (src/ai_engine.py:1172-1245): fires when
leakage exceeds 20% of portfolio effort; critical, to executive with a copy
to vp; `project_id: None` (line 1242). -/
def formula_value_leakage_index (fires : Bool) (st : InsightsState) : InsightsState :=
  fireEmit fires [{ severity := "critical", project_id := none }]
    [{ severity := "critical", project_id := none }] [] st

/-- `_formula_strategy_execution_coverage` (src/ai_engine.py:1247-1330):
when a coverage percentage is computed, below 60% a critical insight to
executive, else below 80% a warning to vp; `project_id: None` (lines 1309,
1328). -/
def formula_strategy_execution_coverage (coverage_pct : Option ℚ)
    (st : InsightsState) : InsightsState :=
  match coverage_pct with
  | none => st
  | some c =>
    if c < 60 then emit st [{ severity := "critical", project_id := none }] [] []
    else if c < 80 then emit st [] [{ severity := "warning", project_id := none }] []
    else st

/-- `_formula_top_bottom_analysis` (src/ai_engine.py:1332-1395): critical,
to executive with a copy to vp; `project_id: None` (line 1392). -/
def formula_top_bottom_analysis (fires : Bool) (st : InsightsState) : InsightsState :=
  fireEmit fires [{ severity := "critical", project_id := none }]
    [{ severity := "critical", project_id := none }] [] st

/-- `_formula_delivery_confidence_forecast` (src/ai_engine.py:1397-1464):
critical, to executive with a copy to vp; `project_id: None` (line 1461). -/
def formula_delivery_confidence_forecast (fires : Bool) (st : InsightsState) : InsightsState :=
  fireEmit fires [{ severity := "critical", project_id := none }]
    [{ severity := "critical", project_id := none }] [] st

/-- `_formula_cost_per_strategic_outcome` (src/ai_engine.py:1470-1513):
info, to vp only; `project_id: None` (line 1511). -/
def formula_cost_per_strategic_outcome (fires : Bool) (st : InsightsState) : InsightsState :=
  fireEmit fires [] [{ severity := "info", project_id := none }] [] st

/-- `_formula_execution_drag_index` (src/ai_engine.py:1515-1564): warning,
to vp with a copy to manager; `project_id: None` (line 1561). -/
def formula_execution_drag_index (fires : Bool) (st : InsightsState) : InsightsState :=
  fireEmit fires [] [{ severity := "warning", project_id := none }]
    [{ severity := "warning", project_id := none }] st

/-- `_formula_investment_map` (src/ai_engine.py:1566-1642): two independent
emissions gated on the over- and under-investment groups; warning and info,
both to vp; `project_id: None` (lines 1622, 1640). -/
def formula_investment_map (over_fires under_fires : Bool) (st : InsightsState) : InsightsState :=
  fireEmit under_fires [] [{ severity := "info", project_id := none }] []
    (fireEmit over_fires [] [{ severity := "warning", project_id := none }] [] st)

/-- `_formula_hidden_dependency_risk` (src/ai_engine.py:1644-1687): warning,
to vp with a copy to manager; `project_id: None` (line 1684). -/
def formula_hidden_dependency_risk (fires : Bool) (st : InsightsState) : InsightsState :=
  fireEmit fires [] [{ severity := "warning", project_id := none }]
    [{ severity := "warning", project_id := none }] st

/-- `_formula_effort_progress_mismatch` (src/ai_engine.py:1693-1742):
warning, to manager; `project_id: None` (line 1740). -/
def formula_effort_progress_mismatch (fires : Bool) (st : InsightsState) : InsightsState :=
  fireEmit fires [] [] [{ severity := "warning", project_id := none }] st

/-- `_formula_resource_utilization_quality` (src/ai_engine.py:1744-1788):
warning, to vp; `project_id: None` (line 1786). -/
def formula_resource_utilization_quality (fires : Bool) (st : InsightsState) : InsightsState :=
  fireEmit fires [] [{ severity := "warning", project_id := none }] [] st

/-- `_formula_managerial_span_effectiveness` (src/ai_engine.py:1790-1847):
warning, to vp; `project_id: None` (line 1845). -/
def formula_managerial_span_effectiveness (fires : Bool) (st : InsightsState) : InsightsState :=
  fireEmit fires [] [{ severity := "warning", project_id := none }] [] st

/-- `_formula_burnout_risk_radar` (src/ai_engine.py:1849-1899): critical,
to vp with a copy to manager; `project_id: None` (line 1896). -/
def formula_burnout_risk_radar (fires : Bool) (st : InsightsState) : InsightsState :=
  fireEmit fires [] [{ severity := "critical", project_id := none }]
    [{ severity := "critical", project_id := none }] st

/-- `_formula_phantom_work_detection` (src/ai_engine.py:1905-1953): warning,
to manager; `project_id: None` (line 1951). -/
def formula_phantom_work_detection (fires : Bool) (st : InsightsState) : InsightsState :=
  fireEmit fires [] [] [{ severity := "warning", project_id := none }] st

/-- `_formula_task_hygiene_score` (src/ai_engine.py:1955-2008): warning,
to manager; `project_id: None` (line 2006). -/
def formula_task_hygiene_score (fires : Bool) (st : InsightsState) : InsightsState :=
  fireEmit fires [] [] [{ severity := "warning", project_id := none }] st

/-- `_formula_idle_capacity_hotspots` (src/ai_engine.py:2010-2065): info,
to manager; `project_id: None` (line 2063). -/
def formula_idle_capacity_hotspots (fires : Bool) (st : InsightsState) : InsightsState :=
  fireEmit fires [] [] [{ severity := "info", project_id := none }] st

/-- `_formula_execution_velocity_by_team` (src/ai_engine.py:2067-2126):
info, to manager; `project_id: None` (line 2124). -/
def formula_execution_velocity_by_team (fires : Bool) (st : InsightsState) : InsightsState :=
  fireEmit fires [] [] [{ severity := "info", project_id := none }] st

/-- The data-dependent firing decisions of the 16 rules, abstracted: each
field stands for the rule's evidence bar and threshold test evaluated on the
loaded data (C10 holds for every outcome of those tests). -/
structure GenParams where
  leakage_fires : Bool
  coverage_pct : Option ℚ
  topbottom_fires : Bool
  delivery_fires : Bool
  costlever_fires : Bool
  drag_fires : Bool
  over_invested_fires : Bool
  under_invested_fires : Bool
  hidden_dep_fires : Bool
  effort_mismatch_fires : Bool
  resource_util_fires : Bool
  span_fires : Bool
  burnout_fires : Bool
  phantom_fires : Bool
  hygiene_fires : Bool
  idle_fires : Bool
  velocity_fires : Bool

/-- Embedding of `PortfolioAIEngine.generate_all_insights`
(src/ai_engine.py:1130-1166): reset the three buckets to empty, then run the
16 formula rules in their fixed order. -/
def generate_all_insights (p : GenParams) : InsightsState :=
  let st : InsightsState :=
    { executive_insights := [], vp_insights := [], manager_insights := [] }
  let st := formula_value_leakage_index p.leakage_fires st
  let st := formula_strategy_execution_coverage p.coverage_pct st
  let st := formula_top_bottom_analysis p.topbottom_fires st
  let st := formula_delivery_confidence_forecast p.delivery_fires st
  let st := formula_cost_per_strategic_outcome p.costlever_fires st
  let st := formula_execution_drag_index p.drag_fires st
  let st := formula_investment_map p.over_invested_fires p.under_invested_fires st
  let st := formula_hidden_dependency_risk p.hidden_dep_fires st
  let st := formula_effort_progress_mismatch p.effort_mismatch_fires st
  let st := formula_resource_utilization_quality p.resource_util_fires st
  let st := formula_managerial_span_effectiveness p.span_fires st
  let st := formula_burnout_risk_radar p.burnout_fires st
  let st := formula_phantom_work_detection p.phantom_fires st
  let st := formula_task_hygiene_score p.hygiene_fires st
  let st := formula_idle_capacity_hotspots p.idle_fires st
  formula_execution_velocity_by_team p.velocity_fires st

/-- Embedding of `_is_valid_project_id` (src/ai_engine.py:57-65) on a
string identifier. -/
def is_valid_project_id (project_id : String) : Bool :=
  let normalized := pyUpper (pyStrip project_id)
  !(normalized == "" || normalized == "UNKNOWN" || normalized == "NOT SPECIFIED")

/-- The severity rank used by each retrieval's sort key
(`{'critical': 0, 'high': 1, 'warning': 2, 'info': 3}.get(severity, 3)`). -/
def severity_rank (s : String) : Nat :=
  if s == "critical" then 0 else if s == "high" then 1
  else if s == "warning" then 2 else if s == "info" then 3 else 3

/-- Stable insertion into a severity-sorted list (helper for `sorted`). -/
def insertBySeverity (i : Insight) : List Insight → List Insight
  | [] => [i]
  | j :: js =>
    if severity_rank j.severity ≤ severity_rank i.severity then j :: insertBySeverity i js
    else i :: j :: js

/-- Python `sorted(l, key=severity_rank)` as an insertion sort. -/
def sort_by_severity (l : List Insight) : List Insight :=
  l.foldr insertBySeverity []

/-- The shared body of the three per-project retrievals: validity gate,
filter by `i.get('project_id') == project_id` (a `None` stored id never
equals the queried string), then severity sort. -/
def filter_for_project (bucket : List Insight) (project_id : String) : List Insight :=
  if is_valid_project_id project_id then
    sort_by_severity (bucket.filter (fun i =>
      match i.project_id with
      | some s => s == project_id
      | none => false))
  else []

/-- Embedding of `get_project_executive_insights` (src/ai_engine.py:2140-2145). -/
def get_project_executive_insights (st : InsightsState) (project_id : String) : List Insight :=
  filter_for_project st.executive_insights project_id

/-- Embedding of `get_project_vp_insights` (src/ai_engine.py:2147-2152). -/
def get_project_vp_insights (st : InsightsState) (project_id : String) : List Insight :=
  filter_for_project st.vp_insights project_id

/-- Embedding of `get_project_manager_insights` (src/ai_engine.py:2154-2159). -/
def get_project_manager_insights (st : InsightsState) (project_id : String) : List Insight :=
  filter_for_project st.manager_insights project_id

/-- Every insight in every bucket is portfolio-wide (`project_id = None`). -/
def all_portfolio_wide (st : InsightsState) : Prop :=
  (∀ i ∈ st.executive_insights, i.project_id = none) ∧
  (∀ i ∈ st.vp_insights, i.project_id = none) ∧
  (∀ i ∈ st.manager_insights, i.project_id = none)

/-- Emission preserves the portfolio-wide invariant when the emitted
literals are portfolio-wide. -/
theorem emit_portfolio_wide {st : InsightsState} {es vs ms : List Insight}
    (h : all_portfolio_wide st)
    (he : ∀ i ∈ es, i.project_id = none)
    (hv : ∀ i ∈ vs, i.project_id = none)
    (hm : ∀ i ∈ ms, i.project_id = none) :
    all_portfolio_wide (emit st es vs ms) := by
  obtain ⟨h1, h2, h3⟩ := h
  refine ⟨?_, ?_, ?_⟩ <;> intro i hi
  · rcases List.mem_append.mp hi with hi2 | hi2
    · exact h1 i hi2
    · exact he i hi2
  · rcases List.mem_append.mp hi with hi2 | hi2
    · exact h2 i hi2
    · exact hv i hi2
  · rcases List.mem_append.mp hi with hi2 | hi2
    · exact h3 i hi2
    · exact hm i hi2

/-- Guarded emission preserves the portfolio-wide invariant. -/
theorem fireEmit_portfolio_wide (cond : Bool) {es vs ms : List Insight}
    {st : InsightsState} (h : all_portfolio_wide st)
    (he : ∀ i ∈ es, i.project_id = none)
    (hv : ∀ i ∈ vs, i.project_id = none)
    (hm : ∀ i ∈ ms, i.project_id = none) :
    all_portfolio_wide (fireEmit cond es vs ms st) := by
  unfold fireEmit
  split
  · exact emit_portfolio_wide h he hv hm
  · exact h

/-- Membership in a one-literal list with `project_id := none`. -/
theorem single_portfolio_wide (sev : String) :
    ∀ i ∈ [({ severity := sev, project_id := none } : Insight)], i.project_id = none := by
  intro i hi
  rcases List.mem_singleton.mp hi with rfl
  rfl

/-- Membership in the empty emission list. -/
theorem nil_portfolio_wide :
    ∀ i ∈ ([] : List Insight), i.project_id = none := by
  intro i hi
  exact absurd hi (List.not_mem_nil i)

/-- After `generate_all_insights`, every insight of every persona bucket
carries `project_id = None`, whatever the rules' firing decisions. -/
theorem generate_all_portfolio_wide (p : GenParams) :
    all_portfolio_wide (generate_all_insights p) := by
  unfold generate_all_insights formula_value_leakage_index
    formula_strategy_execution_coverage formula_top_bottom_analysis
    formula_delivery_confidence_forecast formula_cost_per_strategic_outcome
    formula_execution_drag_index formula_investment_map
    formula_hidden_dependency_risk formula_effort_progress_mismatch
    formula_resource_utilization_quality formula_managerial_span_effectiveness
    formula_burnout_risk_radar formula_phantom_work_detection
    formula_task_hygiene_score formula_idle_capacity_hotspots
    formula_execution_velocity_by_team
  have h0 : all_portfolio_wide
      { executive_insights := [], vp_insights := [], manager_insights := [] } :=
    ⟨nil_portfolio_wide, nil_portfolio_wide, nil_portfolio_wide⟩
  have hcov : ∀ st : InsightsState, all_portfolio_wide st →
      all_portfolio_wide (match p.coverage_pct with
        | none => st
        | some c =>
          if c < 60 then emit st [{ severity := "critical", project_id := none }] [] []
          else if c < 80 then emit st [] [{ severity := "warning", project_id := none }] []
          else st) := by
    intro st hst
    match p.coverage_pct with
    | none => exact hst
    | some c =>
      by_cases h60 : c < 60
      · simp only [if_pos h60]
        exact emit_portfolio_wide hst (single_portfolio_wide _) nil_portfolio_wide
          nil_portfolio_wide
      · simp only [if_neg h60]
        by_cases h80 : c < 80
        · simp only [if_pos h80]
          exact emit_portfolio_wide hst nil_portfolio_wide (single_portfolio_wide _)
            nil_portfolio_wide
        · simp only [if_neg h80]
          exact hst
  refine fireEmit_portfolio_wide _ ?_ nil_portfolio_wide nil_portfolio_wide
    (single_portfolio_wide _)
  refine fireEmit_portfolio_wide _ ?_ nil_portfolio_wide nil_portfolio_wide
    (single_portfolio_wide _)
  refine fireEmit_portfolio_wide _ ?_ nil_portfolio_wide nil_portfolio_wide
    (single_portfolio_wide _)
  refine fireEmit_portfolio_wide _ ?_ nil_portfolio_wide nil_portfolio_wide
    (single_portfolio_wide _)
  refine fireEmit_portfolio_wide _ ?_ nil_portfolio_wide (single_portfolio_wide _)
    (single_portfolio_wide _)
  refine fireEmit_portfolio_wide _ ?_ nil_portfolio_wide (single_portfolio_wide _)
    nil_portfolio_wide
  refine fireEmit_portfolio_wide _ ?_ nil_portfolio_wide (single_portfolio_wide _)
    nil_portfolio_wide
  refine fireEmit_portfolio_wide _ ?_ nil_portfolio_wide nil_portfolio_wide
    (single_portfolio_wide _)
  refine fireEmit_portfolio_wide _ ?_ nil_portfolio_wide (single_portfolio_wide _)
    (single_portfolio_wide _)
  refine fireEmit_portfolio_wide _ ?_ nil_portfolio_wide (single_portfolio_wide _)
    nil_portfolio_wide
  refine fireEmit_portfolio_wide _ ?_ nil_portfolio_wide (single_portfolio_wide _)
    nil_portfolio_wide
  refine fireEmit_portfolio_wide _ ?_ nil_portfolio_wide (single_portfolio_wide _)
    (single_portfolio_wide _)
  refine fireEmit_portfolio_wide _ ?_ nil_portfolio_wide (single_portfolio_wide _)
    nil_portfolio_wide
  refine fireEmit_portfolio_wide _ ?_ (single_portfolio_wide _) (single_portfolio_wide _)
    nil_portfolio_wide
  refine fireEmit_portfolio_wide _ ?_ (single_portfolio_wide _) (single_portfolio_wide _)
    nil_portfolio_wide
  exact hcov _
    (fireEmit_portfolio_wide _ h0 (single_portfolio_wide _) (single_portfolio_wide _)
      nil_portfolio_wide)

/-- Filtering a portfolio-wide bucket for a specific project keeps nothing. -/
theorem filter_portfolio_wide_nil (l : List Insight) (project_id : String)
    (hall : ∀ i ∈ l, i.project_id = none) :
    l.filter (fun i =>
      match i.project_id with
      | some s => s == project_id
      | none => false) = [] := by
  induction l with
  | nil => rfl
  | cons hd tl ih =>
    have h1 : hd.project_id = none := hall hd (List.mem_cons_self hd tl)
    simp only [List.filter_cons, h1]
    exact ih (fun i hi => hall i (List.mem_cons_of_mem _ hi))

/-- C10 (confirmed): every insight produced by the 16 rules is
portfolio-wide (`project_id = None`), and the per-project retrievals filter
by equality with a validated (non-`None`) identifier, so for every valid
project identifier the three per-project retrievals return the empty list
after `generate_all_insights`. -/
theorem C10_project_insights_empty (p : GenParams) (project_id : String)
    (hvalid : is_valid_project_id project_id = true) :
    get_project_executive_insights (generate_all_insights p) project_id = [] ∧
    get_project_vp_insights (generate_all_insights p) project_id = [] ∧
    get_project_manager_insights (generate_all_insights p) project_id = [] := by
  obtain ⟨h1, h2, h3⟩ := generate_all_portfolio_wide p
  unfold get_project_executive_insights get_project_vp_insights
    get_project_manager_insights filter_for_project
  rw [if_pos hvalid, if_pos hvalid, if_pos hvalid,
    filter_portfolio_wide_nil _ _ h1, filter_portfolio_wide_nil _ _ h2,
    filter_portfolio_wide_nil _ _ h3]
  exact ⟨rfl, rfl, rfl⟩

/-- Witness for C10 at a concrete parameter vector and identifier. -/
theorem C10_witness :
    is_valid_project_id "WAVE-7" = true ∧
    get_project_executive_insights
      (generate_all_insights
        ⟨true, some 50, true, true, true, true, true, true, true, true, true,
          true, true, true, true, true, true⟩) "WAVE-7" = [] :=
  ⟨by decide,
   (C10_project_insights_empty
      ⟨true, some 50, true, true, true, true, true, true, true, true, true,
        true, true, true, true, true, true⟩ "WAVE-7" (by decide)).1⟩
